import Mathlib

/-!
Shallow embedding of `pi3d/Display.py` — the frame-loop controller of the
pi3d rendering framework.  Sprites are opaque objects compared by identity;
we model each sprite by a natural number.  Python `time.time()` readings are
passed in as rational parameters; the code's side effects on sprites
(`load_opengl`, `repaint(t)`, `unload_opengl`), the buffer swap and the
pacing sleep are recorded as an explicit event trace.  The module-level
`Display.INSTANCE` is threaded as an `Option Nat` holding the id of the
current display, when any.
-/

namespace Pi3d

/-- Sprites are compared by object identity; we model identity as `Nat`. -/
abbrev Sprite := Nat

/-- Module constant `ALLOW_MULTIPLE_DISPLAYS = False` (Display.py line 17). -/
def ALLOW_MULTIPLE_DISPLAYS : Bool := false

/-- Module constant `RAISE_EXCEPTIONS = True` (Display.py line 18). -/
def RAISE_EXCEPTIONS : Bool := true

/-- `DEFAULT_NEAR_3D = 0.5` (Display.py line 22). -/
def DEFAULT_NEAR_3D : ℚ := 1/2

/-- `DEFAULT_FAR_3D = 800.0` (Display.py line 23). -/
def DEFAULT_FAR_3D : ℚ := 800

/-- `DEFAULT_NEAR_2D = -1.0` (Display.py line 24). -/
def DEFAULT_NEAR_2D : ℚ := -1

/-- `DEFAULT_FAR_2D = 500.0` (Display.py line 25). -/
def DEFAULT_FAR_2D : ℚ := 500

/-- Observable effects emitted while a loop phase runs: `clear` the frame
buffer, the three sprite hooks, the buffer swap, and the pacing sleep. -/
inductive Event where
  | clear : Event
  | load : Sprite → Event
  | repaint : Sprite → ℚ → Event
  | swapBuffers : Event
  | unload : Sprite → Event
  | sleep : ℚ → Event
deriving DecidableEq, Repr

/-- The per-instance state of `Display`.  `sprites` holds the elements the
`self.sprites` object would still yield when iterated; `sprites_gen` records
that `self.sprites` currently holds an exhausted generator (the object bound
at line 154 after the repaint iteration consumed it) rather than a list —
such an object has no `extend` method, so the next `_loop_begin` raises
`AttributeError`.  `frames_per_second = 0` models the attribute being absent
or `None` (the `getattr(self, 'frames_per_second', 0)` default at line 164 is
falsy in those cases).  `mouse`/`tkwin` hold the coordinates the
corresponding objects would report, when those objects exist. -/
structure DisplayState where
  id : Nat
  sprites : List Sprite
  sprites_gen : Bool
  sprites_to_load : List Sprite
  sprites_to_unload : List Sprite
  internal_loop : Bool
  external_loop : Bool
  is_running : Bool
  time : ℚ
  frames_per_second : ℚ
  mouse : Option (Int × Int)
  tkwin : Option (Int × Int)
deriving DecidableEq, Repr

/-- Result of `Display.__init__`'s singleton handling (lines 38-42):
either the construction completes — with the resulting `Display.INSTANCE`
and a flag recording whether the second-instance warning was logged — or the
`assert ALLOW_MULTIPLE_DISPLAYS` fails with `AssertionError`. -/
inductive InitResult where
  | ok : Option Nat → Bool → InitResult
  | assertionError : InitResult
deriving DecidableEq, Repr

/-- `Display.__init__`, lines 38-42: if `Display.INSTANCE` is truthy, assert
the multi-display flag (raising `AssertionError` when it is unset) and log a
warning; otherwise set `Display.INSTANCE` to the new object.  Note the
`else` branch is the only assignment to `INSTANCE`. -/
def display_init (inst : Option Nat) (allow_multiple : Bool) (selfId : Nat) :
    InitResult :=
  match inst with
  | some i =>
      if allow_multiple then InitResult.ok (some i) true
      else InitResult.assertionError
  | none => InitResult.ok (some selfId) false

/-- `Display.stop` (line 101-103): clear the running flag. -/
def stop (d : DisplayState) : DisplayState :=
  { d with is_running := false }

/-- `Display.destroy` (lines 105-120): `stop`, then best-effort release of
the OpenGL surface, mouse and tk window (each in `try/except: pass`, with no
effect on the modelled fields), then `Display.INSTANCE = None`
unconditionally.  Returns the new instance pointer alongside the state. -/
def destroy (inst : Option Nat) (d : DisplayState) : DisplayState × Option Nat :=
  (stop d, none)

/-- `Display._loop_begin` (lines 141-148): clear the frame, swap out
`sprites_to_load` under the lock, `self.sprites.extend(to_load)`, then run
`load_opengl` on each newly added sprite.  When `self.sprites` holds a
generator (after a removing `_loop_end`), the `extend` call raises
`AttributeError` — the Bool result is `true` in that case and the load hooks
never run (the pending-load set has already been swapped out). -/
def loop_begin (d : DisplayState) : DisplayState × List Event × Bool :=
  let to_load := d.sprites_to_load
  if d.sprites_gen then
    ({ d with sprites_to_load := [] }, ([Event.clear], true))
  else
    ({ d with sprites_to_load := [], sprites := d.sprites ++ to_load },
     (Event.clear :: to_load.map Event.load, false))

/-- The frame-pacing tail of `_loop_end` (lines 164-168): when
`frames_per_second` is truthy, advance `self.time` by `1/frames_per_second`,
compute `delta = self.time - time.time()`, and sleep for `delta` exactly
when `delta > 0`.  Returns the new `self.time` and the sleep events. -/
def pacing_step (time fps now : ℚ) : ℚ × List Event :=
  if fps = 0 then (time, [])
  else (time + 1 / fps,
        if 0 < time + 1 / fps - now then [Event.sleep (time + 1 / fps - now)]
        else [])

/-- `Display._loop_end` (lines 150-168).  Under the lock: swap out
`sprites_to_unload`; if it is non-empty, rebind `self.sprites` to the
generator `(s for s in self.sprites if s in to_unload)` — note the
condition keeps exactly the sprites that ARE in the unload set.  Then take
`t = time.time()` and repaint every sprite the `self.sprites` object yields
(which consumes the generator, leaving it exhausted), swap buffers, call
`unload_opengl` on each sprite of the swapped-out set, and finally apply
frame pacing.  `t` is the clock reading taken before the repaints and `now`
the one taken by the pacing code. -/
def loop_end (d : DisplayState) (t now : ℚ) : DisplayState × List Event :=
  let to_unload := d.sprites_to_unload
  let removing := !to_unload.isEmpty
  let repaint_list :=
    if removing then d.sprites.filter (fun s => decide (s ∈ to_unload))
    else d.sprites
  let pacing := pacing_step d.time d.frames_per_second now
  ({ d with sprites := if removing then [] else d.sprites,
            sprites_gen := d.sprites_gen || removing,
            sprites_to_unload := [], time := pacing.1 },
   repaint_list.map (fun s => Event.repaint s t) ++ [Event.swapBuffers]
     ++ to_unload.map Event.unload ++ pacing.2)

/-- Outcome of one `loop_running` call: a normal return (with the emitted
events and the returned `self.is_running`), the `assert not
self.internal_loop` failure, or the `AttributeError` out of
`self.sprites.extend` when `self.sprites` holds a generator. -/
inductive AdvanceOutcome where
  | ret : List Event → Bool → AdvanceOutcome
  | assertionError : AdvanceOutcome
  | attributeError : List Event → AdvanceOutcome
deriving DecidableEq, Repr

/-- `Display.loop_running` (lines 59-74), with the module-level
`Display.INSTANCE` threaded through because of the `destroy` it may invoke.
Running: assert the loop mode, run `_loop_end` when a frame is in flight
(otherwise record `self.time` and set `external_loop`), then `_loop_begin`.
Not running: run a final `_loop_end`, then `destroy`, and return the (now
false) `self.is_running`. -/
def loop_running (inst : Option Nat) (d : DisplayState) (t now : ℚ) :
    Option Nat × DisplayState × AdvanceOutcome :=
  if d.is_running then
    if d.internal_loop then (inst, d, AdvanceOutcome.assertionError)
    else
      let r1 :=
        if d.external_loop then loop_end d t now
        else ({ d with time := t, external_loop := true }, [])
      let r2 := loop_begin r1.1
      if r2.2.2 then (inst, r2.1, AdvanceOutcome.attributeError (r1.2 ++ r2.2.1))
      else (inst, r2.1, AdvanceOutcome.ret (r1.2 ++ r2.2.1) r2.1.is_running)
  else
    let r1 := loop_end d t now
    let r2 := destroy inst r1.1
    (r2.2, r2.1, AdvanceOutcome.ret r1.2 r2.1.is_running)

/-- `Display.mouse_position` (lines 132-139): the mouse position when a
mouse object exists, else the tk window's pointer position when a tk window
exists, else `(-1, -1)`. -/
def DisplayState.mouse_position (d : DisplayState) : Int × Int :=
  match d.mouse with
  | some p => p
  | none =>
    match d.tkwin with
    | some q => q
    | none => (-1, -1)

/-- `create`'s near-plane resolution (lines 257-258): an explicitly supplied
value is used unchanged; `None` resolves to the `is_3d`-dependent default. -/
def create_near (is_3d : Bool) (near : Option ℚ) : ℚ :=
  match near with
  | some n => n
  | none => if is_3d then DEFAULT_NEAR_3D else DEFAULT_NEAR_2D

/-- `create`'s far-plane resolution (lines 259-260). -/
def create_far (is_3d : Bool) (far : Option ℚ) : ℚ :=
  match far with
  | some f => f
  | none => if is_3d then DEFAULT_FAR_3D else DEFAULT_FAR_2D

/-- A sprite hook that can raise: `Except.error e` models a raised exception
carrying identity `e`. -/
abbrev Hook := Sprite → Except Nat Unit

/-- `Display._for_each_sprite` (lines 170-179): apply the hook to each
sprite; on an exception, log it (`LOGGER.error`), then re-raise if
`RAISE_EXCEPTIONS`.  Returns the list of logged faults in order and the
propagated fault, if any (propagation aborts the iteration). -/
def for_each_sprite (raise_exceptions : Bool) (f : Hook) :
    List Sprite → List Nat × Option Nat
  | [] => ([], none)
  | s :: rest =>
    match f s with
    | Except.ok _ => for_each_sprite raise_exceptions f rest
    | Except.error e =>
      if raise_exceptions then ([e], some e)
      else
        let r := for_each_sprite raise_exceptions f rest
        (e :: r.1, r.2)

/-- The unload loop of `_loop_end` (lines 161-162): a plain `for` with no
`try/except`, so a raising `unload_opengl` propagates immediately and
nothing is logged.  Same result shape as `for_each_sprite`. -/
def run_unloads (f : Hook) : List Sprite → List Nat × Option Nat
  | [] => ([], none)
  | s :: rest =>
    match f s with
    | Except.ok _ => run_unloads f rest
    | Except.error e => ([], some e)

/-- The faults a hook raises over a sprite list, in iteration order. -/
def hook_faults (f : Hook) (l : List Sprite) : List Nat :=
  l.filterMap (fun s =>
    match f s with
    | Except.ok _ => none
    | Except.error e => some e)

/-- Whether an event is a call delivered to sprite `u`. -/
def involves (u : Sprite) : Event → Bool
  | Event.load s => s == u
  | Event.repaint s _ => s == u
  | Event.unload s => s == u
  | _ => false

/-- A freshly constructed display with no sprites and no pacing. -/
def baseDisplay : DisplayState :=
  { id := 0, sprites := [], sprites_gen := false, sprites_to_load := [],
    sprites_to_unload := [], internal_loop := false, external_loop := false,
    is_running := true, time := 0, frames_per_second := 0,
    mouse := none, tkwin := none }

/-- A display after `destroy()` ran: running flag cleared. -/
def destroyedDisplay : DisplayState :=
  { baseDisplay with is_running := false, external_loop := true }

/-- A display distinct from the current instance `some 0`. -/
def displayOne : DisplayState :=
  { baseDisplay with id := 1 }

/-- Active sprites `[1, 2]` with sprite `2` queued for unload. -/
def unloadBugDisplay : DisplayState :=
  { baseDisplay with sprites := [1, 2], sprites_to_unload := [2] }

/-- A display with a 30 fps target configured. -/
def pacingDisplay : DisplayState :=
  { baseDisplay with frames_per_second := 30, time := 10, external_loop := true }

/-- A running display that has not started its loop, with one pending load. -/
def firstCallDisplay : DisplayState :=
  { baseDisplay with sprites_to_load := [7] }

/-- A display with sprite `5` active and queued for unload. -/
def removalDisplay : DisplayState :=
  { baseDisplay with sprites := [5], sprites_to_unload := [5] }

/-! Helper lemmas. -/

lemma loop_end_eq (d : DisplayState) (t now : ℚ) :
    loop_end d t now =
      ({ d with
          sprites := if !d.sprites_to_unload.isEmpty then [] else d.sprites,
          sprites_gen := d.sprites_gen || !d.sprites_to_unload.isEmpty,
          sprites_to_unload := [],
          time := (pacing_step d.time d.frames_per_second now).1 },
       (if !d.sprites_to_unload.isEmpty then
           d.sprites.filter (fun s => decide (s ∈ d.sprites_to_unload))
         else d.sprites).map (fun s => Event.repaint s t)
         ++ [Event.swapBuffers] ++ d.sprites_to_unload.map Event.unload
         ++ (pacing_step d.time d.frames_per_second now).2) := rfl

lemma pacing_step_zero (time now : ℚ) : pacing_step time 0 now = (time, []) := by
  unfold pacing_step
  rw [if_pos rfl]

lemma pacing_step_pos (time fps now : ℚ) (h : fps ≠ 0)
    (h2 : 0 < time + 1 / fps - now) :
    pacing_step time fps now
      = (time + 1 / fps, [Event.sleep (time + 1 / fps - now)]) := by
  unfold pacing_step
  rw [if_neg h, if_pos h2]

lemma pacing_step_nonpos (time fps now : ℚ) (h : fps ≠ 0)
    (h2 : ¬0 < time + 1 / fps - now) :
    pacing_step time fps now = (time + 1 / fps, []) := by
  unfold pacing_step
  rw [if_neg h, if_neg h2]

lemma pacing_time (time fps now : ℚ) (h : fps ≠ 0) :
    (pacing_step time fps now).1 = time + 1 / fps := by
  by_cases h2 : 0 < time + 1 / fps - now
  · rw [pacing_step_pos time fps now h h2]
  · rw [pacing_step_nonpos time fps now h h2]

lemma sleep_mem_pacing (x time fps now : ℚ) (h : fps ≠ 0) :
    Event.sleep x ∈ (pacing_step time fps now).2 ↔
      (x = time + 1 / fps - now ∧ 0 < x) := by
  by_cases h2 : 0 < time + 1 / fps - now
  · rw [pacing_step_pos time fps now h h2]
    simp only [List.mem_singleton, Event.sleep.injEq]
    exact ⟨fun hx => ⟨hx, hx ▸ h2⟩, fun hx => hx.1⟩
  · rw [pacing_step_nonpos time fps now h h2]
    simp only [List.not_mem_nil, false_iff, not_and]
    rintro rfl
    exact h2

lemma filter_involves_pacing (u : Sprite) (time fps now : ℚ) :
    (pacing_step time fps now).2.filter (involves u) = [] := by
  by_cases h : fps = 0
  · rw [h, pacing_step_zero]
    rfl
  · by_cases h2 : 0 < time + 1 / fps - now
    · rw [pacing_step_pos time fps now h h2]
      rfl
    · rw [pacing_step_nonpos time fps now h h2]
      rfl

lemma filter_beq_of_count_one (l : List Sprite) (u : Sprite) (h : l.count u = 1) :
    l.filter (fun s => s == u) = [u] := by
  have hb : l.filter (fun s => s == u) = l.filter (· == u) := rfl
  rw [hb, List.filter_beq, h, List.replicate_one]

lemma for_each_sprite_false (f : Hook) (l : List Sprite) :
    for_each_sprite false f l = (hook_faults f l, none) := by
  induction l with
  | nil => rfl
  | cons s rest ih =>
    cases hf : f s with
    | ok v => simp [for_each_sprite, hook_faults, hf, ih, List.filterMap_cons]
    | error e => simp [for_each_sprite, hook_faults, hf, ih, List.filterMap_cons]

lemma for_each_sprite_true (f : Hook) (l : List Sprite) :
    for_each_sprite true f l = ((hook_faults f l).take 1, (hook_faults f l).head?) := by
  induction l with
  | nil => rfl
  | cons s rest ih =>
    cases hf : f s with
    | ok v => simp [for_each_sprite, hook_faults, hf, ih, List.filterMap_cons]
    | error e => simp [for_each_sprite, hook_faults, hf, List.filterMap_cons]

lemma run_unloads_eq (f : Hook) (l : List Sprite) :
    run_unloads f l = ([], (hook_faults f l).head?) := by
  induction l with
  | nil => rfl
  | cons s rest ih =>
    cases hf : f s with
    | ok v => simp [run_unloads, hook_faults, hf, ih, List.filterMap_cons]
    | error e => simp [run_unloads, hook_faults, hf, List.filterMap_cons]

/-! Claim theorems. -/

/-- C1: the claim says the end-phase commit filters the active sprite
sequence down to the sprites NOT in the swapped-out unload set.  The code
(line 154) filters with `if s in to_unload`, keeping exactly the marked
sprites: with active `[1, 2]` and pending unload `{2}`, sprite `1` gets no
repaint and no unload hook, while the marked sprite `2` is repainted; the
active sequence ends up an exhausted generator (empty, `sprites_gen` set),
not `[1]`. -/
theorem loop_end_inverted_filter_eval :
    (loop_end unloadBugDisplay 0 0).2
      = [Event.repaint 2 0, Event.swapBuffers, Event.unload 2] ∧
    (loop_end unloadBugDisplay 0 0).1.sprites = [] ∧
    (loop_end unloadBugDisplay 0 0).1.sprites_gen = true :=
  ⟨by decide, by decide, by decide⟩

/-- C2 counterexample: constructing a second Display while one is live and
`ALLOW_MULTIPLE_DISPLAYS` is unset raises `AssertionError` (it does not
complete with a warning); moreover even with the flag set the new instance
does not become `Display.INSTANCE` — the first instance remains current. -/
theorem second_display_assertion_cex :
    display_init (some 0) ALLOW_MULTIPLE_DISPLAYS 1 = InitResult.assertionError ∧
    display_init (some 0) true 1 = InitResult.ok (some 0) true :=
  ⟨rfl, rfl⟩

/-- C2 amended: a second construction raises `AssertionError` when the
multi-display flag is unset; when the flag is set it completes with only a
warning but `Display.INSTANCE` keeps the first instance; a first
construction installs itself as the instance with no warning. -/
theorem second_display_behavior (i newId : Nat) :
    display_init (some i) false newId = InitResult.assertionError ∧
    display_init (some i) true newId = InitResult.ok (some i) true ∧
    display_init none ALLOW_MULTIPLE_DISPLAYS newId
      = InitResult.ok (some newId) false :=
  ⟨rfl, rfl, rfl⟩

theorem second_display_behavior_witness :
    display_init (some 0) false 1 = InitResult.assertionError :=
  (second_display_behavior 0 1).1

/-- C3 counterexample: calling `loop_running` on a destroyed display (running
flag cleared) does not fail with any use-after-destroy error — it runs a
final end-phase, destroys again, and returns `False`. -/
theorem advance_after_destroy_cex :
    (loop_running none destroyedDisplay 0 0).2.2
      = AdvanceOutcome.ret [Event.swapBuffers] false ∧
    destroyedDisplay.is_running = false :=
  ⟨by decide, rfl⟩

/-- C3 amended: after `destroy()` (which clears `is_running`), a subsequent
`loop_running` call raises nothing: it performs a final `_loop_end`, calls
`destroy` again (clearing `Display.INSTANCE`), and returns `False`. -/
theorem advance_after_destroy_returns_false (inst : Option Nat)
    (d : DisplayState) (t now : ℚ) (h : d.is_running = false) :
    loop_running inst d t now =
      (none, stop (loop_end d t now).1,
       AdvanceOutcome.ret (loop_end d t now).2 false) := by
  simp [loop_running, destroy, stop, h]

theorem advance_after_destroy_returns_false_witness :
    loop_running none destroyedDisplay 0 0 =
      (none, stop (loop_end destroyedDisplay 0 0).1,
       AdvanceOutcome.ret (loop_end destroyedDisplay 0 0).2 false) :=
  advance_after_destroy_returns_false none destroyedDisplay 0 0 rfl

/-- C4: a sprite that is active (exactly once) and marked for removal before
an end-phase receives, during that end-phase, exactly one more `repaint(t)`
call and then its `unload` hook, in that order, with no further call to it
in the phase; afterwards the active sequence is exhausted, so the sprite is
not scheduled for any later repaint. -/
theorem removed_sprite_final_repaint (d : DisplayState) (u : Sprite)
    (t now : ℚ) (h1 : d.sprites.count u = 1)
    (h2 : d.sprites_to_unload.count u = 1) :
    (loop_end d t now).2.filter (involves u)
      = [Event.repaint u t, Event.unload u] ∧
    (loop_end d t now).1.sprites = [] := by
  have hu : u ∈ d.sprites_to_unload := List.count_pos_iff.mp (by omega)
  have hne : d.sprites_to_unload.isEmpty = false :=
    List.isEmpty_eq_false.mpr (List.ne_nil_of_mem hu)
  constructor
  · rw [loop_end_eq]
    rw [List.filter_append, List.filter_append, List.filter_append,
        filter_involves_pacing]
    have hrep : ((if !d.sprites_to_unload.isEmpty then
          d.sprites.filter (fun s => decide (s ∈ d.sprites_to_unload))
        else d.sprites).map (fun s => Event.repaint s t)).filter (involves u)
        = [Event.repaint u t] := by
      rw [if_pos (by rw [hne]; rfl)]
      have hcomp : (involves u ∘ fun s => Event.repaint s t)
          = fun s => s == u := by
        funext s; rfl
      rw [List.filter_map, hcomp, List.filter_filter]
      have hcongr : ∀ x ∈ d.sprites,
          (x == u && decide (x ∈ d.sprites_to_unload)) = (x == u) := by
        intro x _
        by_cases hx : x = u
        · subst hx; simp [hu]
        · simp [hx]
      have hcg := List.filter_congr hcongr
      rw [hcg, filter_beq_of_count_one d.sprites u h1]
      rfl
    have hunl : (d.sprites_to_unload.map Event.unload).filter (involves u)
        = [Event.unload u] := by
      have hcomp : (involves u ∘ Event.unload) = fun s => s == u := by
        funext s; rfl
      rw [List.filter_map, hcomp,
          filter_beq_of_count_one d.sprites_to_unload u h2]
      rfl
    rw [hrep, hunl]
    rfl
  · rw [loop_end_eq]
    simp [hne]

theorem removed_sprite_final_repaint_witness :
    (loop_end removalDisplay 3 0).2.filter (involves 5)
      = [Event.repaint 5 3, Event.unload 5] :=
  (removed_sprite_final_repaint removalDisplay 5 3 0 (by decide) (by decide)).1

/-- C5: with a frame-rate target configured, each end-phase advances the
virtual deadline `self.time` by exactly `1/frames_per_second` (independently
of the current clock, so the accumulated deadline is never reset), and a
sleep occurs if and only if `delta = deadline - now` is positive, in which
case the sleep is for exactly `delta`; no sleep and no error when
`delta ≤ 0`. -/
theorem frame_pacing_spec (d : DisplayState) (t now : ℚ)
    (h : d.frames_per_second ≠ 0) :
    (loop_end d t now).1.time = d.time + 1 / d.frames_per_second ∧
    ∀ x : ℚ, Event.sleep x ∈ (loop_end d t now).2 ↔
      (x = d.time + 1 / d.frames_per_second - now ∧ 0 < x) := by
  constructor
  · rw [loop_end_eq]
    exact pacing_time d.time d.frames_per_second now h
  · intro x
    have hmem : Event.sleep x ∈ (loop_end d t now).2 ↔
        Event.sleep x ∈ (pacing_step d.time d.frames_per_second now).2 := by
      rw [loop_end_eq]
      simp
    rw [hmem]
    exact sleep_mem_pacing x d.time d.frames_per_second now h

theorem frame_pacing_spec_witness :
    (loop_end pacingDisplay 0 5).1.time
      = pacingDisplay.time + 1 / pacingDisplay.frames_per_second :=
  (frame_pacing_spec pacingDisplay 0 5
    (by norm_num [pacingDisplay, baseDisplay])).1

/-- C6 counterexample: `Display.INSTANCE` holds display `0`, yet destroying
the distinct display `1` still clears the pointer to `None` — the claim
that destroying a non-current instance leaves the pointer unchanged fails. -/
theorem destroy_clears_noncurrent_cex :
    displayOne.id = 1 ∧ (destroy (some 0) displayOne).2 = none ∧
    (destroy (some 0) displayOne).2 ≠ some 0 :=
  ⟨rfl, rfl, by decide⟩

/-- C6 amended: `destroy()` always sets `Display.INSTANCE` to `None` (line
120 is unconditional), regardless of whether the destroyed instance is the
current one; it also clears the running flag. -/
theorem destroy_always_clears_current (inst : Option Nat) (d : DisplayState) :
    (destroy inst d).2 = none ∧ (destroy inst d).1.is_running = false :=
  ⟨rfl, rfl⟩

theorem destroy_always_clears_current_witness :
    (destroy (some 3) baseDisplay).2 = none :=
  (destroy_always_clears_current (some 3) baseDisplay).1

/-- C7 counterexample: a raising `unload` hook during the end-phase's unload
loop (lines 161-162) is not logged (the logged-fault list is empty) and the
exception propagates — even though `RAISE_EXCEPTIONS` is irrelevant to this
loop, contradicting the claim that unload faults are logged and
policy-controlled. -/
theorem unload_fault_unlogged_cex :
    run_unloads (fun _ => Except.error 7) [0] = ([], some 7) ∧
    RAISE_EXCEPTIONS = true :=
  ⟨rfl, rfl⟩

/-- C7 amended: `load` and `repaint` hooks run through `_for_each_sprite`:
every fault is logged and, per the flag, either propagated immediately
(aborting the iteration; the default, since `RAISE_EXCEPTIONS = True`) or
swallowed with iteration continuing; but `unload` hooks run in a plain loop,
so their faults are never logged and always propagate regardless of the
flag. -/
theorem sprite_fault_policy (f : Hook) (l : List Sprite) :
    RAISE_EXCEPTIONS = true ∧
    for_each_sprite false f l = (hook_faults f l, none) ∧
    for_each_sprite true f l
      = ((hook_faults f l).take 1, (hook_faults f l).head?) ∧
    run_unloads f l = ([], (hook_faults f l).head?) :=
  ⟨rfl, for_each_sprite_false f l, for_each_sprite_true f l,
   run_unloads_eq f l⟩

theorem sprite_fault_policy_witness :
    for_each_sprite false (fun _ => Except.error 7) [0, 1]
      = (hook_faults (fun _ => Except.error 7) [0, 1], none) :=
  (sprite_fault_policy (fun _ => Except.error 7) [0, 1]).2.1

/-- C8: the first `loop_running` call on a running display that has not
started looping records the start timestamp into `self.time`, sets the
external loop mode, emits only begin-phase events (frame clear and load
hooks — no repaint, swap, unload or sleep), and returns `True`. -/
theorem first_advance_begin_only (inst : Option Nat) (d : DisplayState)
    (t now : ℚ) (hr : d.is_running = true) (hi : d.internal_loop = false)
    (he : d.external_loop = false) (hg : d.sprites_gen = false) :
    (loop_running inst d t now).2.1.time = t ∧
    (loop_running inst d t now).2.1.external_loop = true ∧
    (loop_running inst d t now).2.2 =
      AdvanceOutcome.ret (Event.clear :: d.sprites_to_load.map Event.load)
        true ∧
    ∀ e ∈ Event.clear :: d.sprites_to_load.map Event.load,
      e = Event.clear ∨ ∃ s, e = Event.load s := by
  have hmain : loop_running inst d t now =
      (inst,
       { d with time := t, external_loop := true, sprites_to_load := [],
                sprites := d.sprites ++ d.sprites_to_load },
       AdvanceOutcome.ret (Event.clear :: d.sprites_to_load.map Event.load)
         true) := by
    simp [loop_running, loop_begin, hr, hi, he, hg]
  refine ⟨by rw [hmain], by rw [hmain], by rw [hmain], ?_⟩
  intro e he'
  rcases List.mem_cons.mp he' with h0 | h1
  · exact Or.inl h0
  · rcases List.mem_map.mp h1 with ⟨s, -, rfl⟩
    exact Or.inr ⟨s, rfl⟩

theorem first_advance_begin_only_witness :
    (loop_running none firstCallDisplay 5 5).2.2 =
      AdvanceOutcome.ret
        (Event.clear :: firstCallDisplay.sprites_to_load.map Event.load)
        true :=
  (first_advance_begin_only none firstCallDisplay 5 5 rfl rfl rfl rfl).2.2.1

/-- C9: `mouse_position` on a display with no mouse object returns the tk
window's pointer coordinates when a tk window exists, and `(-1, -1)` when
neither exists; no exception is raised (the function is total). -/
theorem mouse_position_fallback (d : DisplayState) (h : d.mouse = none) :
    (∀ q, d.tkwin = some q → d.mouse_position = q) ∧
    (d.tkwin = none → d.mouse_position = (-1, -1)) := by
  constructor
  · intro q hq
    simp [DisplayState.mouse_position, h, hq]
  · intro hn
    simp [DisplayState.mouse_position, h, hn]

theorem mouse_position_fallback_witness :
    baseDisplay.mouse_position = (-1, -1) :=
  (mouse_position_fallback baseDisplay rfl).2 rfl

/-- C10: with `near` (resp. `far`) unspecified, `create` resolves the near
clip plane to `0.5` when `is_3d` and `-1.0` otherwise, and the far clip
plane to `800.0` when `is_3d` and `500.0` otherwise; explicitly supplied
values are used unchanged. -/
theorem create_near_far_defaults :
    create_near true none = 1/2 ∧ create_near false none = -1 ∧
    create_far true none = 800 ∧ create_far false none = 500 ∧
    ∀ (b : Bool) (q : ℚ), create_near b (some q) = q ∧ create_far b (some q) = q :=
  ⟨rfl, rfl, rfl, rfl, fun _ q => ⟨rfl, rfl⟩⟩

end Pi3d
